import Mathlib

/-!
Verification of the overview_dashboard metrics agents.

This file gives a shallow embedding of the decision logic of the three
agent scripts (Linux host agent, Checkpoint firewall agent, OpenShift
cluster agent) and proves properties of that logic.

Conventions of the embedding:
* Python floats (CPU / memory / disk percentages) are modelled as rationals.
* Python ints (thresholds, replica counts, HTTP codes) are modelled as
  integers or naturals.
* Python strings are Lean strings; severity values are the literal strings
  produced by the scripts.
* External probes (subprocess output, hostname resolution, HTTP transport)
  are parameters of the embedded functions, as they are collaborators
  outside the core logic.
-/

set_option maxRecDepth 8192
set_option linter.unusedVariables false
set_option autoImplicit false

namespace OverviewDashboard

/-! ## Severity ordinal

The scripts encode severity as the strings ok / warning / error.
`sevRank` gives the ordinal used throughout: ok < warning < error.
-/

def sevRank (s : String) : Nat :=
  if s = "error" then 2 else if s = "warning" then 1 else 0

/-- Ordinal maximum of two severity strings. -/
def sevMax (a b : String) : String :=
  if sevRank a < sevRank b then b else a

/-- ASCII lower-casing of a character, mirroring Python str.lower on the
ASCII state tokens that appear in this code base. -/
def pyLowerChar (c : Char) : Char :=
  if 'A' ≤ c ∧ c ≤ 'Z' then Char.ofNat (c.toNat + 32) else c

/-- ASCII lower-casing of a string (Python str.lower on ASCII input). -/
def pyLower (s : String) : String :=
  String.mk (s.data.map pyLowerChar)

/-- One two-threshold block of the severity ratchet, exactly as both
calculate_severity functions write it:
if x >= error: severity = error
elif x >= warning and severity != error: severity = warning -/
def thresholdStep (severity : String) (x : ℚ) (warning_threshold error_threshold : ℤ) : String :=
  if x ≥ (error_threshold : ℚ) then "error"
  else if x ≥ (warning_threshold : ℚ) ∧ severity ≠ "error" then "warning"
  else severity

/-- The severity a single two-threshold rule assigns on its own. -/
def thresholdSev (x : ℚ) (warning_threshold error_threshold : ℤ) : String :=
  if x ≥ (error_threshold : ℚ) then "error"
  else if x ≥ (warning_threshold : ℚ) then "warning"
  else "ok"

/-- The severity the Checkpoint dual CPU rule (average or max) assigns on
its own. -/
def cpuPairSev (avg mx : ℚ) (warning_threshold error_threshold : ℤ) : String :=
  if avg ≥ (error_threshold : ℚ) ∨ mx ≥ (error_threshold : ℚ) then "error"
  else if avg ≥ (warning_threshold : ℚ) ∨ mx ≥ (warning_threshold : ℚ) then "warning"
  else "ok"

/-- The severity a presence rule (non-empty list of problems) assigns on
its own. -/
def listSev (l : List String) : String :=
  if l = [] then "ok" else "error"

/-- The severity the Checkpoint cluster-state rule assigns on its own. -/
def clusterSev (cluster_state : String) : String :=
  if pyLower cluster_state ∈ (["down", "problem", "error", "unknown"] : List String) then "error"
  else "ok"

namespace LinuxAgent

/-- One row of get_disk_usage: device, mount point, used percentage. -/
structure DiskEntry where
  device : String
  mount_point : String
  used_percent : ℚ
  deriving DecidableEq

/-- calculate_severity of scripts/linux_agent/get_system_metrics.py.
Sequential ratchet over CPU, memory, each disk, and the failed-service
list; each numeric block is the if / elif pattern of thresholdStep. -/
def calculate_severity (cpu_usage memory_usage : ℚ) (disks : List DiskEntry)
    (failed_services : List String)
    (warning_threshold error_threshold : ℤ) : String :=
  let severity := "ok"
  let severity := thresholdStep severity cpu_usage warning_threshold error_threshold
  let severity := thresholdStep severity memory_usage warning_threshold error_threshold
  let severity := disks.foldl
    (fun s d => thresholdStep s d.used_percent warning_threshold error_threshold) severity
  if failed_services ≠ [] then "error" else severity

/-- The per-rule severities of the Linux classifier, in evaluation order. -/
def rules (cpu_usage memory_usage : ℚ) (disks : List DiskEntry)
    (failed_services : List String)
    (warning_threshold error_threshold : ℤ) : List String :=
  [thresholdSev cpu_usage warning_threshold error_threshold,
   thresholdSev memory_usage warning_threshold error_threshold]
  ++ disks.map (fun d => thresholdSev d.used_percent warning_threshold error_threshold)
  ++ [listSev failed_services]

end LinuxAgent

namespace CheckpointAgent

/-- calculate_severity of scripts/checkpoint_fw_agent/get_checkpoint_metrics.py.
Sequential ratchet over the CPU pair (average, max), memory, the cluster
state, the device-error list and the heavy-connection list. -/
def calculate_severity (cpu_usage max_cpu_usage memory_usage : ℚ)
    (cluster_state : String) (errors heavy_connections : List String)
    (warning_threshold error_threshold : ℤ) : String :=
  let severity := "ok"
  let severity :=
    if cpu_usage ≥ (error_threshold : ℚ) ∨ max_cpu_usage ≥ (error_threshold : ℚ) then "error"
    else if (cpu_usage ≥ (warning_threshold : ℚ) ∨ max_cpu_usage ≥ (warning_threshold : ℚ))
        ∧ severity ≠ "error" then "warning"
    else severity
  let severity := thresholdStep severity memory_usage warning_threshold error_threshold
  let severity :=
    if pyLower cluster_state ∈ (["down", "problem", "error", "unknown"] : List String) then "error"
    else severity
  let severity := if errors ≠ [] then "error" else severity
  if heavy_connections ≠ [] then "error" else severity

/-- The per-rule severities of the Checkpoint classifier, in evaluation
order. -/
def rules (cpu_usage max_cpu_usage memory_usage : ℚ)
    (cluster_state : String) (errors heavy_connections : List String)
    (warning_threshold error_threshold : ℤ) : List String :=
  [cpuPairSev cpu_usage max_cpu_usage warning_threshold error_threshold,
   thresholdSev memory_usage warning_threshold error_threshold,
   clusterSev cluster_state,
   listSev errors,
   listSev heavy_connections]

end CheckpointAgent

/-! ## JSON values

Model of the JSON values the agents build and serialize (dicts, strings,
numbers); enough to state the wire-shape properties. -/

inductive Json where
  | null
  | bool (b : Bool)
  | num (n : ℤ)
  | str (s : String)
  | arr (elems : List Json)
  | obj (fields : List (String × Json))

/-- Escaping of the characters json.dumps escapes in the strings this
code base produces. -/
def escapeChar (c : Char) : String :=
  if c = '"' then "\\\"" else if c = '\\' then "\\\\"
  else if c = '\n' then "\\n" else String.singleton c

def escapeStr (s : String) : String :=
  String.join (s.data.map escapeChar)

mutual

/-- json.dumps with its default separators. -/
def jsonDumps : Json → String
  | .null => "null"
  | .bool b => if b then "true" else "false"
  | .num n => toString n
  | .str s => "\"" ++ escapeStr s ++ "\""
  | .arr elems => "[" ++ dumpsElems elems ++ "]"
  | .obj fields => "\x7b" ++ dumpsFields fields ++ "\x7d"

def dumpsElems : List Json → String
  | [] => ""
  | [j] => jsonDumps j
  | j :: rest => jsonDumps j ++ ", " ++ dumpsElems rest

def dumpsFields : List (String × Json) → String
  | [] => ""
  | [(k, v)] => "\"" ++ escapeStr k ++ "\": " ++ jsonDumps v
  | (k, v) :: rest => "\"" ++ escapeStr k ++ "\": " ++ jsonDumps v ++ ", " ++ dumpsFields rest

end

/-- Is this JSON value an object? -/
def Json.isObj : Json → Bool
  | .obj _ => true
  | _ => false

/-- Is this JSON value a string? -/
def Json.isStr : Json → Bool
  | .str _ => true
  | _ => false

/-- A Python value that is either a string or None, as JSON. -/
def Json.ofOptStr : Option String → Json
  | some s => .str s
  | none => .null

/-- The value bound to the key payload in a wire body, when present. -/
def payloadField (body : Json) : Option Json :=
  match body with
  | .obj fields => (fields.find? (fun kv => kv.1 == "payload")).map (fun kv => kv.2)
  | _ => none

/-- The string bound to key k in a JSON object, when the value is a
string. -/
def objStrField (j : Json) (k : String) : Option String :=
  match j with
  | .obj fields =>
    match (fields.find? (fun kv => kv.1 == k)).map (fun kv => kv.2) with
    | some (Json.str s) => some s
    | _ => none
  | _ => none

namespace LinuxAgent

/-- Decimal rendering of a metric value inside an f-string; abstracts
Python float formatting, which no verified property depends on. -/
def ratStr (q : ℚ) : String := toString q

/-- format_disks_string of the Linux agent. -/
def format_disks_string (disks : List DiskEntry) : String :=
  if disks = [] then "No disks found"
  else String.intercalate ", "
    (disks.map (fun d => d.mount_point ++ " (" ++ ratStr d.used_percent ++ "%)"))

/-- format_services_string of the Linux agent. -/
def format_services_string (failed_services : List String) : String :=
  if failed_services ≠ [] then "Down: " ++ String.intercalate ", " failed_services
  else "All Enabled Services Running"

/-- build_payload of the Linux agent. The hostname is a parameter because
get_hostname is an external probe. -/
def build_payload (cpu_usage memory_usage : ℚ) (disks : List DiskEntry)
    (failed_services : List String) (severity project_name system_name hostname : String) :
    Json :=
  .obj [("projectName", .str project_name),
        ("systemName", .str system_name),
        ("payload", .obj [
          ("Id", .str hostname),
          ("Name", .str hostname),
          ("CPU", .str (ratStr cpu_usage ++ "%")),
          ("Memory", .str (ratStr memory_usage ++ "%")),
          ("Disks", .str (format_disks_string disks)),
          ("Services", .str (format_services_string failed_services)),
          ("Severity", .str severity)])]

/-- The ignore test of get_failed_services, written as the source writes
it: walk the ignore list, break on the first match; a pattern ending in
a star matches by prefix, otherwise by equality. -/
def should_ignore (ignore_list : List String) (service_name : String) : Bool :=
  match ignore_list with
  | [] => false
  | pattern :: rest =>
    if pattern.endsWith "*" then
      if service_name.startsWith (pattern.dropRight 1) then true
      else should_ignore rest service_name
    else if pattern = service_name then true
    else should_ignore rest service_name

/-- The filtering core of get_failed_services: keep, in order, every unit
name no ignore pattern matches. The surrounding systemctl probe and line
splitting are external input, so the unit-name list is the parameter. -/
def get_failed_services (units : List String) (ignore_list : List String) : List String :=
  match units with
  | [] => []
  | service_name :: rest =>
    if should_ignore ignore_list service_name then get_failed_services rest ignore_list
    else service_name :: get_failed_services rest ignore_list

/-- One ignore pattern matching one unit name, as the spec words it:
a pattern ending in a star matches iff the unit name starts with the
pattern minus its trailing star; any other pattern matches iff it is
string-equal to the unit name. -/
def patternMatches (pattern service_name : String) : Bool :=
  if pattern.endsWith "*" then service_name.startsWith (pattern.dropRight 1)
  else pattern = service_name

end LinuxAgent

namespace CheckpointAgent

/-- Fixed-point rendering with three decimals, as in the f-string
format .3f; rounding detail of Python floats abstracted. -/
def fmt3 (q : ℚ) : String :=
  let n : ℤ := round (q * 1000)
  let sign := if n < 0 then "-" else ""
  let m := n.natAbs
  let frac := m % 1000
  let pad := if frac < 10 then "00" else if frac < 100 then "0" else ""
  sign ++ toString (m / 1000) ++ "." ++ pad ++ toString frac

/-- build_payload of the Checkpoint agent (get_checkpoint_metrics.py). -/
def build_payload (cpu_usage : ℚ) (heavy_cpus : List String) (memory_usage : ℚ)
    (total_mem_bytes free_mem_bytes : ℤ) (cluster_state : String)
    (errors heavy_connections : List String)
    (severity project_name system_name hostname : String) : Json :=
  let error_str := if errors ≠ [] then String.intercalate ", " errors else "No Errors"
  let cpu_str := LinuxAgent.ratStr cpu_usage ++ "%" ++
    (if heavy_cpus ≠ [] then " (Heavy: " ++ String.intercalate ", " heavy_cpus ++ ")" else "")
  let free_gb : ℚ := (free_mem_bytes : ℚ) / (1024 ^ 3 : ℚ)
  let free_percent : ℚ :=
    if total_mem_bytes > 0 then (free_mem_bytes : ℚ) / (total_mem_bytes : ℚ) * 100 else 0
  let mem_str := "Free: " ++ fmt3 free_gb ++ "GB (" ++ fmt3 free_percent ++ "%)"
  let heavy_conn_str :=
    if heavy_connections ≠ [] then toString heavy_connections.length ++ " found" else "None"
  .obj [("projectName", .str project_name),
        ("systemName", .str system_name),
        ("payload", .obj [
          ("Id", .str hostname),
          ("Name", .str hostname),
          ("CPU", .str cpu_str),
          ("Memory", .str mem_str),
          ("Cluster State", .str cluster_state),
          ("Errors", .str error_str),
          ("Heavy Connections", .str heavy_conn_str),
          ("Severity", .str severity)])]

/-! ### get_errors: the cphaprob list device parser

A faithful model of re.search for the two patterns the code uses,
each a literal key followed by optional whitespace and a greedy
one-line capture. -/

/-- Python str.isspace characters relevant to re \s. -/
def isPySpace (c : Char) : Bool :=
  c = ' ' || c = '\t' || c = '\n' || c = '\r' || c = '\x0b' || c = '\x0c'

/-- Backtracking for the regex tail: from position i downward, the first
position holding a character other than a newline starts the greedy
one-line capture. -/
def dotPlusFrom (cs : List Char) : Nat → Option (List Char)
  | 0 =>
    match cs.head? with
    | some c => if c ≠ '\n' then some (cs.takeWhile (fun a => a ≠ '\n')) else none
    | none => none
  | i + 1 =>
    match cs.get? (i + 1) with
    | some c =>
      if c ≠ '\n' then some ((cs.drop (i + 1)).takeWhile (fun a => a ≠ '\n'))
      else dotPlusFrom cs i
    | none => dotPlusFrom cs i

/-- Match of the regex tail (whitespace run, then a greedy one-line
capture) at the start of cs, with the backtracking the regex engine
performs when the whitespace run reaches the end of the text. -/
def matchSpaceCapture (cs : List Char) : Option (List Char) :=
  dotPlusFrom cs ((cs.takeWhile isPySpace).length)

/-- re.search of a literal key followed by the whitespace-and-capture
tail: leftmost start position wins. -/
def searchKeyCapture (key : List Char) : List Char → Option (List Char)
  | [] => none
  | c :: rest =>
    if key.isPrefixOf (c :: rest) then
      match matchSpaceCapture ((c :: rest).drop key.length) with
      | some g => some g
      | none => searchKeyCapture key rest
    else searchKeyCapture key rest

/-- Python str.strip. -/
def pyStrip (cs : List Char) : List Char :=
  ((cs.dropWhile isPySpace).reverse.dropWhile isPySpace).reverse

/-- Python split on the two-newline separator, non-overlapping and left
to right, as output.split of the code. -/
def splitOnBlank : List Char → List Char → List (List Char)
  | [], acc => [acc.reverse]
  | '\n' :: '\n' :: rest, acc => acc.reverse :: splitOnBlank rest []
  | c :: rest, acc => splitOnBlank rest (c :: acc)

/-- get_errors of the Checkpoint agent: split the cphaprob list output on
blank lines; for each block search the Device Name and State fields; a
block with both fields whose stripped state differs from OK contributes
name colon state. -/
def get_errors (output : String) : List String :=
  (splitOnBlank output.data []).filterMap (fun device =>
    match searchKeyCapture "Device Name:".data device,
          searchKeyCapture "State:".data device with
    | some nameG, some stateG =>
      let name := String.mk (pyStrip nameG)
      let state := String.mk (pyStrip stateG)
      if state ≠ "OK" then some (name ++ ": " ++ state) else none
    | _, _ => none)

end CheckpointAgent

namespace Ocp

/-- The spec fields calculate_status reads (monitor_ocp.py). Replica
counts are the non-negative integers the Kubernetes API serves. -/
structure K8sSpec where
  replicas : Option ℕ
  deriving DecidableEq

/-- The status fields calculate_status reads. -/
structure K8sStatus where
  availableReplicas : Option ℕ := none
  readyReplicas : Option ℕ := none
  desiredNumberScheduled : Option ℕ := none
  numberReady : Option ℕ := none
  deriving DecidableEq

/-- The tuple calculate_status returns. -/
structure StatusResult where
  status_str : String
  severity : String
  desired : ℕ
  current : ℕ
  deriving DecidableEq

/-- calculate_status of monitor_ocp.py: pick the desired and current
replica counts per kind (with the dict-get defaults of the code), then
classify. The initial Unknown and info defaults are always overwritten
by the if / else that follows, as in the source. -/
def calculate_status (kind : String) (spec : K8sSpec) (status : K8sStatus) : StatusResult :=
  let dc : ℕ × ℕ :=
    if kind = "deployments" then (spec.replicas.getD 1, status.availableReplicas.getD 0)
    else if kind = "statefulsets" then (spec.replicas.getD 1, status.readyReplicas.getD 0)
    else if kind = "daemonsets" then (status.desiredNumberScheduled.getD 0, status.numberReady.getD 0)
    else (0, 0)
  let desired := dc.1
  let current := dc.2
  if desired > 0 then
    if current ≥ desired then ⟨"Running", "ok", desired, current⟩
    else if current = 0 then ⟨"Down", "error", desired, current⟩
    else ⟨"Degraded", "warning", desired, current⟩
  else ⟨"ScaledDown", "warning", desired, current⟩

/-- The resource_entry dict collect_and_push builds for one workload
object; metadata fields may be absent (None). -/
def resource_entry (name nspace created_at : Option String)
    (status_str severity : String) (desired current : ℕ) : List (String × Json) :=
  [("Id", Json.ofOptStr name),
   ("Name", Json.ofOptStr name),
   ("Namespace", Json.ofOptStr nspace),
   ("Status", Json.str status_str),
   ("Severity", Json.str severity),
   ("ClusterCreatedAt", Json.ofOptStr created_at),
   ("Replicas", Json.str (toString current ++ "/" ++ toString desired))]

def SYSTEM_NAME : String := "OpenShift"

/-- The wire body collect_and_push posts for one resource: note the
payload value is the json.dumps string of the resource dict. -/
def wire_body (project_name : String) (resource : List (String × Json)) : Json :=
  .obj [("systemName", .str SYSTEM_NAME),
        ("projectName", .str project_name),
        ("payload", .str (jsonDumps (.obj resource)))]

/-- Python dict subscription: the value, or a KeyError. -/
def dictGet (d : List (String × Json)) (k : String) : Except String Json :=
  match d.find? (fun kv => kv.1 == k) with
  | some kv => .ok kv.2
  | none => .error ("KeyError: " ++ k)

/-- Outcome of one requests.post call: an HTTP status code, or a raised
exception. -/
inductive PostOutcome where
  | success (code : ℕ)
  | exn (msg : String)
  deriving DecidableEq

/-- One iteration of the posting loop of collect_and_push. The try block
posts; on a non-2xx code the failure print renders the name subscript of
the resource dict; the except handler print renders the same subscript.
A KeyError raised inside the handler propagates. -/
def post_resource (resource : List (String × Json)) (outcome : PostOutcome) :
    Except String Unit :=
  let tryBlock : Except String Unit :=
    match outcome with
    | .success code =>
      if code < 200 ∨ code ≥ 300 then
        match dictGet resource "name" with
        | .ok _ => .ok ()
        | .error msg => .error msg
      else .ok ()
    | .exn msg => .error msg
  match tryBlock with
  | .ok _ => .ok ()
  | .error _ =>
    match dictGet resource "name" with
    | .ok _ => .ok ()
    | .error msg => .error msg

/-- The per-resource posting loop: returns how many resources were
attempted and the exception that escaped the loop, if any. -/
def post_loop : List (List (String × Json) × PostOutcome) → ℕ × Option String
  | [] => (0, none)
  | (resource, outcome) :: rest =>
    match post_resource resource outcome with
    | .ok _ => let p := post_loop rest; (p.1 + 1, p.2)
    | .error msg => (1, some msg)

end Ocp

/-- Running maximum of severity ranks over a rule list. -/
def rankFold (l : List String) (n : Nat) : Nat :=
  l.foldl (fun a r => Nat.max a (sevRank r)) n

/-! ## Lemmas: the severity ordinal and the max decomposition -/

theorem sevMax_ok_right (s : String) : sevMax s "ok" = s := by
  unfold sevMax sevRank
  split_ifs <;> simp_all

theorem sevMax_error_right (s : String) : sevMax s "error" = "error" := by
  unfold sevMax sevRank
  split_ifs <;> simp_all

theorem sevMax_warning_right (s : String) :
    sevMax s "warning" = if s = "error" then "error" else "warning" := by
  unfold sevMax sevRank
  split_ifs <;> simp_all

theorem sevRank_sevMax (a b : String) :
    sevRank (sevMax a b) = Nat.max (sevRank a) (sevRank b) := by
  unfold sevMax
  split_ifs with h
  · exact (Nat.max_eq_right (Nat.le_of_lt h)).symm
  · exact (Nat.max_eq_left (Nat.le_of_not_lt h)).symm

theorem sevRank_le_two (s : String) : sevRank s ≤ 2 := by
  unfold sevRank
  split_ifs <;> omega

theorem thresholdStep_eq_sevMax (s : String) (x : ℚ) (w e : ℤ) :
    thresholdStep s x w e = sevMax s (thresholdSev x w e) := by
  unfold thresholdStep thresholdSev
  by_cases h1 : x ≥ (e : ℚ)
  · rw [if_pos h1, if_pos h1, sevMax_error_right]
  · by_cases h2 : x ≥ (w : ℚ)
    · by_cases h3 : s = "error"
      · have hc : ¬(x ≥ (w : ℚ) ∧ s ≠ "error") := fun hcc => hcc.2 h3
        rw [if_neg h1, if_neg hc, if_neg h1, if_pos h2, sevMax_warning_right, if_pos h3, h3]
      · rw [if_neg h1, if_pos ⟨h2, h3⟩, if_neg h1, if_pos h2, sevMax_warning_right, if_neg h3]
    · have hc : ¬(x ≥ (w : ℚ) ∧ s ≠ "error") := fun hcc => h2 hcc.1
      rw [if_neg h1, if_neg hc, if_neg h1, if_neg h2, sevMax_ok_right]

/-- The Checkpoint CPU block of the ratchet, as the source writes it,
equals the ordinal maximum with the dual CPU rule. -/
theorem cpuStep_eq_sevMax (s : String) (avg mx : ℚ) (w e : ℤ) :
    (if avg ≥ (e : ℚ) ∨ mx ≥ (e : ℚ) then "error"
     else if (avg ≥ (w : ℚ) ∨ mx ≥ (w : ℚ)) ∧ s ≠ "error" then "warning"
     else s) = sevMax s (cpuPairSev avg mx w e) := by
  unfold cpuPairSev
  by_cases h1 : avg ≥ (e : ℚ) ∨ mx ≥ (e : ℚ)
  · rw [if_pos h1, if_pos h1, sevMax_error_right]
  · by_cases h2 : avg ≥ (w : ℚ) ∨ mx ≥ (w : ℚ)
    · by_cases h3 : s = "error"
      · have hc : ¬((avg ≥ (w : ℚ) ∨ mx ≥ (w : ℚ)) ∧ s ≠ "error") := fun hcc => hcc.2 h3
        rw [if_neg h1, if_neg hc, if_neg h1, if_pos h2, sevMax_warning_right, if_pos h3, h3]
      · rw [if_neg h1, if_pos ⟨h2, h3⟩, if_neg h1, if_pos h2, sevMax_warning_right, if_neg h3]
    · have hc : ¬((avg ≥ (w : ℚ) ∨ mx ≥ (w : ℚ)) ∧ s ≠ "error") := fun hcc => h2 hcc.1
      rw [if_neg h1, if_neg hc, if_neg h1, if_neg h2, sevMax_ok_right]

theorem ifError_eq_sevMax (c : Prop) [Decidable c] (s : String) :
    (if c then "error" else s) = sevMax s (if c then "error" else "ok") := by
  by_cases h : c
  · rw [if_pos h, if_pos h, sevMax_error_right]
  · rw [if_neg h, if_neg h, sevMax_ok_right]

theorem listSev_eq_ite (l : List String) :
    (if l ≠ [] then "error" else "ok") = listSev l := by
  unfold listSev
  by_cases h : l = [] <;> simp [h]

theorem foldl_thresholdStep_eq (disks : List LinuxAgent.DiskEntry) (s : String) (w e : ℤ) :
    disks.foldl (fun a d => thresholdStep a d.used_percent w e) s =
      (disks.map (fun d => thresholdSev d.used_percent w e)).foldl sevMax s := by
  induction disks generalizing s with
  | nil => rfl
  | cons d rest ih =>
    rw [List.map_cons, List.foldl_cons, List.foldl_cons, thresholdStep_eq_sevMax, ih]

/-- The Linux sequential ratchet equals the ordinal maximum of its
per-rule severities. -/
theorem linux_eq_max (cpu mem : ℚ) (disks : List LinuxAgent.DiskEntry)
    (failed : List String) (w e : ℤ) :
    LinuxAgent.calculate_severity cpu mem disks failed w e =
      (LinuxAgent.rules cpu mem disks failed w e).foldl sevMax "ok" := by
  unfold LinuxAgent.calculate_severity LinuxAgent.rules
  rw [ifError_eq_sevMax (failed ≠ []), listSev_eq_ite, foldl_thresholdStep_eq,
    thresholdStep_eq_sevMax, thresholdStep_eq_sevMax]
  simp [List.foldl_append]

/-- The Checkpoint sequential ratchet equals the ordinal maximum of its
per-rule severities. -/
theorem checkpoint_eq_max (cpu mx mem : ℚ) (state : String)
    (errors heavy : List String) (w e : ℤ) :
    CheckpointAgent.calculate_severity cpu mx mem state errors heavy w e =
      (CheckpointAgent.rules cpu mx mem state errors heavy w e).foldl sevMax "ok" := by
  unfold CheckpointAgent.calculate_severity CheckpointAgent.rules clusterSev
  rw [ifError_eq_sevMax (heavy ≠ []), listSev_eq_ite,
    ifError_eq_sevMax (errors ≠ []), listSev_eq_ite,
    ifError_eq_sevMax (pyLower state ∈ (["down", "problem", "error", "unknown"] : List String)),
    thresholdStep_eq_sevMax, cpuStep_eq_sevMax]
  simp [List.foldl_cons]

theorem sevRank_foldl_sevMax (l : List String) (s : String) :
    sevRank (l.foldl sevMax s) = rankFold l (sevRank s) := by
  induction l generalizing s with
  | nil => rfl
  | cons a rest ih =>
    rw [List.foldl_cons, ih, rankFold, rankFold, List.foldl_cons, sevRank_sevMax]

theorem natMax_mono (a b c d : Nat) (h1 : a ≤ b) (h2 : c ≤ d) :
    Nat.max a c ≤ Nat.max b d :=
  max_le_max h1 h2

theorem rankFold_append (l1 l2 : List String) (n : Nat) :
    rankFold (l1 ++ l2) n = rankFold l2 (rankFold l1 n) := by
  unfold rankFold
  rw [List.foldl_append]

theorem rankFold_mono_init (l : List String) (m n : Nat) (h : m ≤ n) :
    rankFold l m ≤ rankFold l n := by
  induction l generalizing m n with
  | nil => exact h
  | cons a rest ih =>
    exact ih _ _ (natMax_mono _ _ _ _ h (Nat.le_refl _))

theorem le_rankFold (l : List String) (n : Nat) : n ≤ rankFold l n := by
  induction l generalizing n with
  | nil => exact Nat.le_refl n
  | cons a rest ih => exact Nat.le_trans (Nat.le_max_left _ _) (ih _)

theorem rankFold_replace (pre post : List String) (r r' : String) (n : Nat)
    (h : sevRank r ≤ sevRank r') :
    rankFold (pre ++ r :: post) n ≤ rankFold (pre ++ r' :: post) n := by
  rw [show pre ++ r :: post = (pre ++ [r]) ++ post by simp,
    show pre ++ r' :: post = (pre ++ [r']) ++ post by simp,
    rankFold_append, rankFold_append, rankFold_append, rankFold_append]
  exact rankFold_mono_init _ _ _ (natMax_mono _ _ _ _ (Nat.le_refl _) h)

theorem rankFold_insert (pre post : List String) (r : String) (n : Nat) :
    rankFold (pre ++ post) n ≤ rankFold (pre ++ r :: post) n := by
  rw [show pre ++ r :: post = (pre ++ [r]) ++ post by simp,
    rankFold_append, rankFold_append, rankFold_append]
  exact rankFold_mono_init _ _ _ (Nat.le_max_left _ _)

theorem thresholdSev_rank_mono (x x' : ℚ) (w e : ℤ) (h : x ≤ x') :
    sevRank (thresholdSev x w e) ≤ sevRank (thresholdSev x' w e) := by
  unfold thresholdSev
  by_cases h1 : x' ≥ (e : ℚ)
  · rw [if_pos h1]
    have h2 := sevRank_le_two (if x ≥ (e : ℚ) then "error"
      else if x ≥ (w : ℚ) then "warning" else "ok")
    have h3 : sevRank "error" = 2 := by decide
    omega
  · have h1x : ¬x ≥ (e : ℚ) := fun hc => h1 (le_trans hc h)
    rw [if_neg h1, if_neg h1x]
    by_cases hw : x' ≥ (w : ℚ)
    · rw [if_pos hw]
      have h4 : sevRank "warning" = 1 := by decide
      have h5 : sevRank "ok" = 0 := by decide
      by_cases hw2 : x ≥ (w : ℚ)
      · rw [if_pos hw2]
      · rw [if_neg hw2]; omega
    · have hw2 : ¬x ≥ (w : ℚ) := fun hc => hw (le_trans hc h)
      rw [if_neg hw, if_neg hw2]

theorem cpuPairSev_rank_mono_left (a a' mx : ℚ) (w e : ℤ) (h : a ≤ a') :
    sevRank (cpuPairSev a mx w e) ≤ sevRank (cpuPairSev a' mx w e) := by
  unfold cpuPairSev
  by_cases h1 : a' ≥ (e : ℚ) ∨ mx ≥ (e : ℚ)
  · rw [if_pos h1]
    have h2 := sevRank_le_two (if a ≥ (e : ℚ) ∨ mx ≥ (e : ℚ) then "error"
      else if a ≥ (w : ℚ) ∨ mx ≥ (w : ℚ) then "warning" else "ok")
    have h3 : sevRank "error" = 2 := by decide
    omega
  · have h1x : ¬(a ≥ (e : ℚ) ∨ mx ≥ (e : ℚ)) :=
      fun hc => h1 (hc.imp (fun hx => le_trans hx h) id)
    rw [if_neg h1, if_neg h1x]
    by_cases hw : a' ≥ (w : ℚ) ∨ mx ≥ (w : ℚ)
    · rw [if_pos hw]
      have h4 : sevRank "warning" = 1 := by decide
      have h5 : sevRank "ok" = 0 := by decide
      by_cases hw2 : a ≥ (w : ℚ) ∨ mx ≥ (w : ℚ)
      · rw [if_pos hw2]
      · rw [if_neg hw2]; omega
    · have hw2 : ¬(a ≥ (w : ℚ) ∨ mx ≥ (w : ℚ)) :=
        fun hc => hw (hc.imp (fun hx => le_trans hx h) id)
      rw [if_neg hw, if_neg hw2]

theorem cpuPairSev_rank_mono_right (a mx mx' : ℚ) (w e : ℤ) (h : mx ≤ mx') :
    sevRank (cpuPairSev a mx w e) ≤ sevRank (cpuPairSev a mx' w e) := by
  unfold cpuPairSev
  by_cases h1 : a ≥ (e : ℚ) ∨ mx' ≥ (e : ℚ)
  · rw [if_pos h1]
    have h2 := sevRank_le_two (if a ≥ (e : ℚ) ∨ mx ≥ (e : ℚ) then "error"
      else if a ≥ (w : ℚ) ∨ mx ≥ (w : ℚ) then "warning" else "ok")
    have h3 : sevRank "error" = 2 := by decide
    omega
  · have h1x : ¬(a ≥ (e : ℚ) ∨ mx ≥ (e : ℚ)) :=
      fun hc => h1 (hc.imp id (fun hx => le_trans hx h))
    rw [if_neg h1, if_neg h1x]
    by_cases hw : a ≥ (w : ℚ) ∨ mx' ≥ (w : ℚ)
    · rw [if_pos hw]
      have h4 : sevRank "warning" = 1 := by decide
      have h5 : sevRank "ok" = 0 := by decide
      by_cases hw2 : a ≥ (w : ℚ) ∨ mx ≥ (w : ℚ)
      · rw [if_pos hw2]
      · rw [if_neg hw2]; omega
    · have hw2 : ¬(a ≥ (w : ℚ) ∨ mx ≥ (w : ℚ)) :=
        fun hc => hw (hc.imp id (fun hx => le_trans hx h))
      rw [if_neg hw, if_neg hw2]

theorem listSev_insert_rank (pre post : List String) (r : String) :
    sevRank (listSev (pre ++ post)) ≤ sevRank (listSev (pre ++ r :: post)) := by
  have h2 : pre ++ r :: post ≠ [] := by simp
  unfold listSev
  rw [if_neg h2]
  split_ifs with h1
  · decide
  · exact Nat.le_refl _

theorem thresholdStep_mem (s : String) (x : ℚ) (w e : ℤ)
    (h : s ∈ (["ok", "warning", "error"] : List String)) :
    thresholdStep s x w e ∈ (["ok", "warning", "error"] : List String) := by
  unfold thresholdStep
  split_ifs <;> simp_all

theorem foldl_thresholdStep_mem (disks : List LinuxAgent.DiskEntry) (s : String) (w e : ℤ)
    (h : s ∈ (["ok", "warning", "error"] : List String)) :
    disks.foldl (fun a d => thresholdStep a d.used_percent w e) s ∈
      (["ok", "warning", "error"] : List String) := by
  induction disks generalizing s with
  | nil => exact h
  | cons d rest ih => exact ih _ (thresholdStep_mem _ _ _ _ h)

theorem linux_sev_mem (cpu mem : ℚ) (disks : List LinuxAgent.DiskEntry)
    (failed : List String) (w e : ℤ) :
    LinuxAgent.calculate_severity cpu mem disks failed w e ∈
      (["ok", "warning", "error"] : List String) := by
  unfold LinuxAgent.calculate_severity
  split_ifs with h
  · simp
  · exact foldl_thresholdStep_mem _ _ _ _
      (thresholdStep_mem _ _ _ _ (thresholdStep_mem _ _ _ _ (by simp)))

theorem sevMax_mem (a b : String)
    (ha : a ∈ (["ok", "warning", "error"] : List String))
    (hb : b ∈ (["ok", "warning", "error"] : List String)) :
    sevMax a b ∈ (["ok", "warning", "error"] : List String) := by
  unfold sevMax
  split_ifs <;> assumption

theorem foldl_sevMax_mem (l : List String) (s : String)
    (hs : s ∈ (["ok", "warning", "error"] : List String))
    (hl : ∀ r ∈ l, r ∈ (["ok", "warning", "error"] : List String)) :
    l.foldl sevMax s ∈ (["ok", "warning", "error"] : List String) := by
  induction l generalizing s with
  | nil => exact hs
  | cons a rest ih =>
    exact ih _ (sevMax_mem _ _ hs (hl a (by simp))) (fun r hr => hl r (by simp [hr]))

theorem thresholdSev_mem (x : ℚ) (w e : ℤ) :
    thresholdSev x w e ∈ (["ok", "warning", "error"] : List String) := by
  unfold thresholdSev
  split_ifs <;> simp

theorem cpuPairSev_mem (a mx : ℚ) (w e : ℤ) :
    cpuPairSev a mx w e ∈ (["ok", "warning", "error"] : List String) := by
  unfold cpuPairSev
  split_ifs <;> simp

theorem listSev_mem (l : List String) :
    listSev l ∈ (["ok", "warning", "error"] : List String) := by
  unfold listSev
  split_ifs <;> simp

theorem clusterSev_mem (state : String) :
    clusterSev state ∈ (["ok", "warning", "error"] : List String) := by
  unfold clusterSev
  split_ifs <;> simp

theorem checkpoint_sev_mem (cpu mx mem : ℚ) (state : String)
    (errors heavy : List String) (w e : ℤ) :
    CheckpointAgent.calculate_severity cpu mx mem state errors heavy w e ∈
      (["ok", "warning", "error"] : List String) := by
  rw [checkpoint_eq_max]
  apply foldl_sevMax_mem _ _ (by simp)
  intro r hr
  unfold CheckpointAgent.rules at hr
  simp only [List.mem_cons, List.not_mem_nil, or_false] at hr
  rcases hr with rfl | rfl | rfl | rfl | rfl
  · exact cpuPairSev_mem _ _ _ _
  · exact thresholdSev_mem _ _ _
  · exact clusterSev_mem _
  · exact listSev_mem _
  · exact listSev_mem _

theorem linux_rank (cpu mem : ℚ) (disks : List LinuxAgent.DiskEntry)
    (failed : List String) (w e : ℤ) :
    sevRank (LinuxAgent.calculate_severity cpu mem disks failed w e) =
      rankFold (LinuxAgent.rules cpu mem disks failed w e) 0 := by
  have h0 : sevRank "ok" = 0 := by decide
  rw [linux_eq_max, sevRank_foldl_sevMax, h0]

theorem checkpoint_rank (cpu mx mem : ℚ) (state : String)
    (errors heavy : List String) (w e : ℤ) :
    sevRank (CheckpointAgent.calculate_severity cpu mx mem state errors heavy w e) =
      rankFold (CheckpointAgent.rules cpu mx mem state errors heavy w e) 0 := by
  have h0 : sevRank "ok" = 0 := by decide
  rw [checkpoint_eq_max, sevRank_foldl_sevMax, h0]

/-! ## Claims -/

/-- C1: in both classifiers, a bad cluster state (down, problem, error or
unknown, case-insensitively), a non-empty device-error list, a non-empty
heavy-connection list, or a non-empty failed-service list forces the
returned severity to be error, for every threshold pair and every value
of the numeric metrics. -/
theorem claim_C1 :
    (∀ (cpu mx mem : ℚ) (state : String) (errors heavy : List String) (w e : ℤ),
      (pyLower state ∈ (["down", "problem", "error", "unknown"] : List String) ∨
        errors ≠ [] ∨ heavy ≠ []) →
      CheckpointAgent.calculate_severity cpu mx mem state errors heavy w e = "error") ∧
    (∀ (cpu mem : ℚ) (disks : List LinuxAgent.DiskEntry) (failed : List String) (w e : ℤ),
      failed ≠ [] →
      LinuxAgent.calculate_severity cpu mem disks failed w e = "error") := by
  constructor
  · intro cpu mx mem state errors heavy w e h
    unfold CheckpointAgent.calculate_severity
    rcases h with h | h | h
    · simp only [if_pos h]
      split_ifs <;> rfl
    · simp only [h, ne_eq, not_true_eq_false, not_false_eq_true, if_true]
      split_ifs <;> rfl
    · simp only [h, ne_eq, not_true_eq_false, not_false_eq_true, if_true]
  · intro cpu mem disks failed w e h
    unfold LinuxAgent.calculate_severity
    simp only [h, ne_eq, not_true_eq_false, not_false_eq_true, if_true]

theorem claim_C1_witness :
    CheckpointAgent.calculate_severity 5 5 5 "Down" [] [] 85 95 = "error" ∧
    LinuxAgent.calculate_severity 5 5 [] ["foo.service"] 85 95 = "error" :=
  ⟨claim_C1.1 5 5 5 "Down" [] [] 85 95 (Or.inl (by decide)),
   claim_C1.2 5 5 [] ["foo.service"] 85 95 (by decide)⟩

/-- C3: both sequential ratchet implementations return exactly the
ordinal maximum, starting from ok, of the severities each rule alone
would assign (CPU rule, memory rule, one rule per disk, presence rules,
cluster-state rule). -/
theorem claim_C3 :
    (∀ (cpu mem : ℚ) (disks : List LinuxAgent.DiskEntry) (failed : List String) (w e : ℤ),
      LinuxAgent.calculate_severity cpu mem disks failed w e =
        (LinuxAgent.rules cpu mem disks failed w e).foldl sevMax "ok") ∧
    (∀ (cpu mx mem : ℚ) (state : String) (errors heavy : List String) (w e : ℤ),
      CheckpointAgent.calculate_severity cpu mx mem state errors heavy w e =
        (CheckpointAgent.rules cpu mx mem state errors heavy w e).foldl sevMax "ok") :=
  ⟨linux_eq_max, checkpoint_eq_max⟩

/-- C2: for every threshold pair with warning at most error, both
classifiers are monotonic in the ordinal ok, warning, error: raising the
CPU average, the CPU max, the memory usage or any one disk percentage,
or inserting an element into the disk, failed-service, device-error or
heavy-connection lists, never strictly lowers the returned severity. -/
theorem claim_C2 (w e : ℤ) (hwe : w ≤ e) :
    (∀ (cpu cpu' mem : ℚ) (disks : List LinuxAgent.DiskEntry) (failed : List String),
      cpu ≤ cpu' →
      sevRank (LinuxAgent.calculate_severity cpu mem disks failed w e) ≤
        sevRank (LinuxAgent.calculate_severity cpu' mem disks failed w e)) ∧
    (∀ (cpu mem mem' : ℚ) (disks : List LinuxAgent.DiskEntry) (failed : List String),
      mem ≤ mem' →
      sevRank (LinuxAgent.calculate_severity cpu mem disks failed w e) ≤
        sevRank (LinuxAgent.calculate_severity cpu mem' disks failed w e)) ∧
    (∀ (cpu mem : ℚ) (pre post : List LinuxAgent.DiskEntry)
      (d d' : LinuxAgent.DiskEntry) (failed : List String),
      d.used_percent ≤ d'.used_percent →
      sevRank (LinuxAgent.calculate_severity cpu mem (pre ++ d :: post) failed w e) ≤
        sevRank (LinuxAgent.calculate_severity cpu mem (pre ++ d' :: post) failed w e)) ∧
    (∀ (cpu mem : ℚ) (pre post : List LinuxAgent.DiskEntry)
      (d : LinuxAgent.DiskEntry) (failed : List String),
      sevRank (LinuxAgent.calculate_severity cpu mem (pre ++ post) failed w e) ≤
        sevRank (LinuxAgent.calculate_severity cpu mem (pre ++ d :: post) failed w e)) ∧
    (∀ (cpu mem : ℚ) (disks : List LinuxAgent.DiskEntry) (pre post : List String)
      (u : String),
      sevRank (LinuxAgent.calculate_severity cpu mem disks (pre ++ post) w e) ≤
        sevRank (LinuxAgent.calculate_severity cpu mem disks (pre ++ u :: post) w e)) ∧
    (∀ (cpu cpu' mx mem : ℚ) (state : String) (errors heavy : List String),
      cpu ≤ cpu' →
      sevRank (CheckpointAgent.calculate_severity cpu mx mem state errors heavy w e) ≤
        sevRank (CheckpointAgent.calculate_severity cpu' mx mem state errors heavy w e)) ∧
    (∀ (cpu mx mx' mem : ℚ) (state : String) (errors heavy : List String),
      mx ≤ mx' →
      sevRank (CheckpointAgent.calculate_severity cpu mx mem state errors heavy w e) ≤
        sevRank (CheckpointAgent.calculate_severity cpu mx' mem state errors heavy w e)) ∧
    (∀ (cpu mx mem mem' : ℚ) (state : String) (errors heavy : List String),
      mem ≤ mem' →
      sevRank (CheckpointAgent.calculate_severity cpu mx mem state errors heavy w e) ≤
        sevRank (CheckpointAgent.calculate_severity cpu mx mem' state errors heavy w e)) ∧
    (∀ (cpu mx mem : ℚ) (state : String) (pre post : List String) (er : String)
      (heavy : List String),
      sevRank (CheckpointAgent.calculate_severity cpu mx mem state (pre ++ post) heavy w e) ≤
        sevRank (CheckpointAgent.calculate_severity cpu mx mem state (pre ++ er :: post) heavy w e)) ∧
    (∀ (cpu mx mem : ℚ) (state : String) (errors : List String) (pre post : List String)
      (hc : String),
      sevRank (CheckpointAgent.calculate_severity cpu mx mem state errors (pre ++ post) w e) ≤
        sevRank (CheckpointAgent.calculate_severity cpu mx mem state errors (pre ++ hc :: post) w e)) := by
  refine ⟨?_, ?_, ?_, ?_, ?_, ?_, ?_, ?_, ?_, ?_⟩
  · intro cpu cpu' mem disks failed h
    rw [linux_rank, linux_rank]
    unfold LinuxAgent.rules
    exact rankFold_replace [] _ _ _ 0 (thresholdSev_rank_mono _ _ _ _ h)
  · intro cpu mem mem' disks failed h
    rw [linux_rank, linux_rank]
    unfold LinuxAgent.rules
    exact rankFold_replace [thresholdSev cpu w e] _ _ _ 0 (thresholdSev_rank_mono _ _ _ _ h)
  · intro cpu mem pre post d d' failed h
    rw [linux_rank, linux_rank]
    unfold LinuxAgent.rules
    simp only [List.map_append, List.map_cons]
    simp only [List.cons_append, List.append_assoc, List.nil_append]
    exact rankFold_replace
      ([thresholdSev cpu w e, thresholdSev mem w e] ++
        pre.map (fun d => thresholdSev d.used_percent w e)) _ _ _ 0
      (thresholdSev_rank_mono _ _ _ _ h)
  · intro cpu mem pre post d failed
    rw [linux_rank, linux_rank]
    unfold LinuxAgent.rules
    simp only [List.map_append, List.map_cons]
    simp only [List.cons_append, List.append_assoc, List.nil_append]
    exact rankFold_insert
      ([thresholdSev cpu w e, thresholdSev mem w e] ++
        pre.map (fun d => thresholdSev d.used_percent w e)) _ _ 0
  · intro cpu mem disks pre post u
    rw [linux_rank, linux_rank]
    unfold LinuxAgent.rules
    exact rankFold_replace
      ([thresholdSev cpu w e, thresholdSev mem w e] ++
        disks.map (fun d => thresholdSev d.used_percent w e)) [] _ _ 0
      (listSev_insert_rank _ _ _)
  · intro cpu cpu' mx mem state errors heavy h
    rw [checkpoint_rank, checkpoint_rank]
    unfold CheckpointAgent.rules
    exact rankFold_replace [] _ _ _ 0 (cpuPairSev_rank_mono_left _ _ _ _ _ h)
  · intro cpu mx mx' mem state errors heavy h
    rw [checkpoint_rank, checkpoint_rank]
    unfold CheckpointAgent.rules
    exact rankFold_replace [] _ _ _ 0 (cpuPairSev_rank_mono_right _ _ _ _ _ h)
  · intro cpu mx mem mem' state errors heavy h
    rw [checkpoint_rank, checkpoint_rank]
    unfold CheckpointAgent.rules
    exact rankFold_replace [cpuPairSev cpu mx w e] _ _ _ 0 (thresholdSev_rank_mono _ _ _ _ h)
  · intro cpu mx mem state pre post er heavy
    rw [checkpoint_rank, checkpoint_rank]
    unfold CheckpointAgent.rules
    exact rankFold_replace
      [cpuPairSev cpu mx w e, thresholdSev mem w e, clusterSev state] _ _ _ 0
      (listSev_insert_rank _ _ _)
  · intro cpu mx mem state errors pre post hc
    rw [checkpoint_rank, checkpoint_rank]
    unfold CheckpointAgent.rules
    exact rankFold_replace
      [cpuPairSev cpu mx w e, thresholdSev mem w e, clusterSev state, listSev errors] [] _ _ 0
      (listSev_insert_rank _ _ _)

theorem claim_C2_witness :
    ((85 : ℤ) ≤ 95) ∧
    sevRank (LinuxAgent.calculate_severity 87 10 [] [] 85 95) ≤
      sevRank (LinuxAgent.calculate_severity 96 10 [] [] 85 95) :=
  ⟨by decide, (claim_C2 85 95 (by decide)).1 87 96 10 [] [] (by decide)⟩

/-- C4: calculate_status classifies every workload by its desired and
current counts: desired positive and current at least desired gives
Running and ok; desired positive and current zero gives Down and error;
desired positive and current strictly between gives Degraded and
warning; desired zero gives ScaledDown and warning. A Deployment with
three desired replicas and zero available yields Down, error and the
Replicas string 0/3. -/
theorem claim_C4 :
    (∀ (kind : String) (spec : Ocp.K8sSpec) (status : Ocp.K8sStatus) (r : Ocp.StatusResult),
      Ocp.calculate_status kind spec status = r →
      ((0 < r.desired ∧ r.desired ≤ r.current) →
        r.status_str = "Running" ∧ r.severity = "ok") ∧
      ((0 < r.desired ∧ r.current = 0) →
        r.status_str = "Down" ∧ r.severity = "error") ∧
      ((0 < r.desired ∧ 0 < r.current ∧ r.current < r.desired) →
        r.status_str = "Degraded" ∧ r.severity = "warning") ∧
      (r.desired = 0 →
        r.status_str = "ScaledDown" ∧ r.severity = "warning")) ∧
    Ocp.calculate_status "deployments" ⟨some 3⟩ ⟨some 0, none, none, none⟩ =
      ⟨"Down", "error", 3, 0⟩ ∧
    Ocp.dictGet
      (Ocp.resource_entry (some "web") (some "prod") (some "ts")
        (Ocp.calculate_status "deployments" ⟨some 3⟩ ⟨some 0, none, none, none⟩).status_str
        (Ocp.calculate_status "deployments" ⟨some 3⟩ ⟨some 0, none, none, none⟩).severity
        (Ocp.calculate_status "deployments" ⟨some 3⟩ ⟨some 0, none, none, none⟩).desired
        (Ocp.calculate_status "deployments" ⟨some 3⟩ ⟨some 0, none, none, none⟩).current)
      "Replicas" = Except.ok (Json.str "0/3") := by
  refine ⟨?_, by decide, rfl⟩
  intro kind spec status r hr
  simp only [Ocp.calculate_status] at hr
  split_ifs at hr <;> subst hr <;>
    refine ⟨fun h => ?_, fun h => ?_, fun h => ?_, fun h => ?_⟩ <;>
    simp_all <;> omega

theorem claim_C4_witness :
    (Ocp.calculate_status "daemonsets" ⟨none⟩ ⟨none, none, some 2, some 1⟩).status_str =
      "Degraded" ∧
    (Ocp.calculate_status "daemonsets" ⟨none⟩ ⟨none, none, some 2, some 1⟩).severity =
      "warning" :=
  (claim_C4.1 "daemonsets" ⟨none⟩ ⟨none, none, some 2, some 1⟩
    (Ocp.calculate_status "daemonsets" ⟨none⟩ ⟨none, none, some 2, some 1⟩) rfl).2.2.1
    (by decide)

/-- C9: for Deployments and StatefulSets a missing spec replicas field
defaults the desired count to one, so such a workload with zero current
replicas is classified Down and error, and the ScaledDown branch is
reachable only through an explicit replicas value of zero. -/
theorem claim_C9 :
    (∀ (status : Ocp.K8sStatus),
      (Ocp.calculate_status "deployments" ⟨none⟩ status).desired = 1) ∧
    (∀ (status : Ocp.K8sStatus), status.availableReplicas.getD 0 = 0 →
      (Ocp.calculate_status "deployments" ⟨none⟩ status).status_str = "Down" ∧
      (Ocp.calculate_status "deployments" ⟨none⟩ status).severity = "error") ∧
    (∀ (spec : Ocp.K8sSpec) (status : Ocp.K8sStatus),
      (Ocp.calculate_status "deployments" spec status).status_str = "ScaledDown" →
      spec.replicas = some 0) ∧
    (∀ (status : Ocp.K8sStatus),
      (Ocp.calculate_status "statefulsets" ⟨none⟩ status).desired = 1) ∧
    (∀ (status : Ocp.K8sStatus), status.readyReplicas.getD 0 = 0 →
      (Ocp.calculate_status "statefulsets" ⟨none⟩ status).status_str = "Down" ∧
      (Ocp.calculate_status "statefulsets" ⟨none⟩ status).severity = "error") ∧
    (∀ (spec : Ocp.K8sSpec) (status : Ocp.K8sStatus),
      (Ocp.calculate_status "statefulsets" spec status).status_str = "ScaledDown" →
      spec.replicas = some 0) := by
  refine ⟨?_, ?_, ?_, ?_, ?_, ?_⟩
  · intro status
    simp only [Ocp.calculate_status]
    split_ifs <;> simp_all
  · intro status h
    simp only [Ocp.calculate_status]
    split_ifs <;> simp_all
  · intro spec status h
    simp only [Ocp.calculate_status] at h
    cases hr : spec.replicas with
    | none =>
      rw [hr] at h
      simp only [Option.getD_none] at h
      split_ifs at h <;> simp_all
    | some v =>
      rw [hr] at h
      simp only [Option.getD_some] at h
      split_ifs at h <;> simp_all
  · intro status
    simp only [Ocp.calculate_status]
    split_ifs <;> simp_all
  · intro status h
    simp only [Ocp.calculate_status]
    split_ifs <;> simp_all
  · intro spec status h
    simp only [Ocp.calculate_status] at h
    cases hr : spec.replicas with
    | none =>
      rw [hr] at h
      simp only [Option.getD_none] at h
      split_ifs at h <;> simp_all
    | some v =>
      rw [hr] at h
      simp only [Option.getD_some] at h
      split_ifs at h <;> simp_all

theorem claim_C9_witness :
    (Ocp.calculate_status "deployments" ⟨none⟩ ⟨some 0, none, none, none⟩).status_str =
      "Down" ∧
    (Ocp.calculate_status "deployments" ⟨none⟩ ⟨some 0, none, none, none⟩).severity =
      "error" :=
  claim_C9.2.1 ⟨some 0, none, none, none⟩ (by decide)

/-- C10: for every kind and every spec and status input, calculate_status
returns a severity among ok, warning, error and a status string among
Running, Down, Degraded, ScaledDown; the initial Unknown and info
defaults are unreachable. -/
theorem claim_C10 :
    ∀ (kind : String) (spec : Ocp.K8sSpec) (status : Ocp.K8sStatus),
      (Ocp.calculate_status kind spec status).severity ∈
        (["ok", "warning", "error"] : List String) ∧
      (Ocp.calculate_status kind spec status).status_str ∈
        (["Running", "Down", "Degraded", "ScaledDown"] : List String) := by
  intro kind spec status
  simp only [Ocp.calculate_status]
  split_ifs <;> exact ⟨by simp, by simp⟩

/-- C5 counterexample: the claim asserts every agent variant binds the
payload key to a JSON object, but the cluster agent wire body at a
concrete resource binds it to a JSON string (the json.dumps rendering of
the resource dict), not an object. -/
theorem claim_C5_counterexample :
    (payloadField (Ocp.wire_body "Deployments"
      (Ocp.resource_entry (some "web") (some "prod") (some "ts") "Down" "error" 3 0))).map
        Json.isStr = some true ∧
    (payloadField (Ocp.wire_body "Deployments"
      (Ocp.resource_entry (some "web") (some "prod") (some "ts") "Down" "error" 3 0))).map
        Json.isObj = some false :=
  ⟨rfl, rfl⟩

/-- C5 amended: the Linux and Checkpoint wire bodies bind payload to a
JSON object whose Id and Name are the resolved hostname and whose
Severity is the classifier output, one of ok, warning, error; the
cluster agent wire body instead binds payload to the JSON string
serialization of the resource record. -/
theorem claim_C5 :
    (∀ (cpu mem : ℚ) (disks : List LinuxAgent.DiskEntry) (failed : List String)
      (w e : ℤ) (pn sn host : String),
      (payloadField (LinuxAgent.build_payload cpu mem disks failed
        (LinuxAgent.calculate_severity cpu mem disks failed w e) pn sn host)).map
          Json.isObj = some true ∧
      (payloadField (LinuxAgent.build_payload cpu mem disks failed
        (LinuxAgent.calculate_severity cpu mem disks failed w e) pn sn host)).bind
          (fun p => objStrField p "Id") = some host ∧
      (payloadField (LinuxAgent.build_payload cpu mem disks failed
        (LinuxAgent.calculate_severity cpu mem disks failed w e) pn sn host)).bind
          (fun p => objStrField p "Name") = some host ∧
      (payloadField (LinuxAgent.build_payload cpu mem disks failed
        (LinuxAgent.calculate_severity cpu mem disks failed w e) pn sn host)).bind
          (fun p => objStrField p "Severity") =
            some (LinuxAgent.calculate_severity cpu mem disks failed w e) ∧
      LinuxAgent.calculate_severity cpu mem disks failed w e ∈
        (["ok", "warning", "error"] : List String)) ∧
    (∀ (cpu mx mem : ℚ) (heavy_cpus : List String) (total free : ℤ) (state : String)
      (errors heavy : List String) (w e : ℤ) (pn sn host : String),
      (payloadField (CheckpointAgent.build_payload cpu heavy_cpus mem total free state
        errors heavy (CheckpointAgent.calculate_severity cpu mx mem state errors heavy w e)
        pn sn host)).map Json.isObj = some true ∧
      (payloadField (CheckpointAgent.build_payload cpu heavy_cpus mem total free state
        errors heavy (CheckpointAgent.calculate_severity cpu mx mem state errors heavy w e)
        pn sn host)).bind (fun p => objStrField p "Id") = some host ∧
      (payloadField (CheckpointAgent.build_payload cpu heavy_cpus mem total free state
        errors heavy (CheckpointAgent.calculate_severity cpu mx mem state errors heavy w e)
        pn sn host)).bind (fun p => objStrField p "Name") = some host ∧
      (payloadField (CheckpointAgent.build_payload cpu heavy_cpus mem total free state
        errors heavy (CheckpointAgent.calculate_severity cpu mx mem state errors heavy w e)
        pn sn host)).bind (fun p => objStrField p "Severity") =
          some (CheckpointAgent.calculate_severity cpu mx mem state errors heavy w e) ∧
      CheckpointAgent.calculate_severity cpu mx mem state errors heavy w e ∈
        (["ok", "warning", "error"] : List String)) ∧
    (∀ (pn : String) (resource : List (String × Json)),
      payloadField (Ocp.wire_body pn resource) =
        some (Json.str (jsonDumps (Json.obj resource)))) := by
  refine ⟨?_, ?_, ?_⟩
  · intro cpu mem disks failed w e pn sn host
    exact ⟨rfl, rfl, rfl, rfl, linux_sev_mem cpu mem disks failed w e⟩
  · intro cpu mx mem heavy_cpus total free state errors heavy w e pn sn host
    exact ⟨rfl, rfl, rfl, rfl, checkpoint_sev_mem cpu mx mem state errors heavy w e⟩
  · intro pn resource
    rfl

/-- C6: evaluation of the posting loop at a failing input. The resource
dict built by collect_and_push has the key Name but both error prints
subscript the key name, so the first non-2xx response raises a KeyError
inside the except handler and the loop aborts before the second resource
is attempted; with all-2xx outcomes the loop completes. This refutes the
claim that the loop always attempts every subsequent resource, and
matches the spec requirement the code was meant to implement. -/
theorem claim_C6 :
    Ocp.post_loop
      [(Ocp.resource_entry (some "web") (some "prod") (some "t1") "Down" "error" 3 0,
        Ocp.PostOutcome.success 500),
       (Ocp.resource_entry (some "api") (some "prod") (some "t2") "Running" "ok" 1 1,
        Ocp.PostOutcome.success 200)] = (1, some "KeyError: name") ∧
    Ocp.post_loop
      [(Ocp.resource_entry (some "web") (some "prod") (some "t1") "Running" "ok" 3 3,
        Ocp.PostOutcome.success 200),
       (Ocp.resource_entry (some "api") (some "prod") (some "t2") "Running" "ok" 1 1,
        Ocp.PostOutcome.success 204)] = (2, none) :=
  ⟨rfl, rfl⟩

/-- C8: the failed-services extractor keeps, in source order, exactly the
unit names no ignore pattern matches, where a pattern ending in a star
matches by prefix of the pattern minus the star and any other pattern
matches by string equality. -/
theorem claim_C8 :
    ∀ (units ignore_list : List String),
      LinuxAgent.get_failed_services units ignore_list =
        units.filter
          (fun u => !(ignore_list.any (fun pat => LinuxAgent.patternMatches pat u))) := by
  have hmatch : ∀ (ignore_list : List String) (u : String),
      LinuxAgent.should_ignore ignore_list u =
        ignore_list.any (fun pat => LinuxAgent.patternMatches pat u) := by
    intro ignore_list u
    induction ignore_list with
    | nil => rfl
    | cons pat rest ih =>
      rw [List.any_cons, ← ih, LinuxAgent.should_ignore, LinuxAgent.patternMatches]
      split_ifs with h1 h2 h3 <;> simp_all
  intro units ignore_list
  induction units with
  | nil => rfl
  | cons u rest ih =>
    unfold LinuxAgent.get_failed_services
    rw [List.filter_cons, hmatch, ih]
    by_cases h : ignore_list.any (fun pat => LinuxAgent.patternMatches pat u) <;> simp [h]

/-- C7: the device-health parser splits the raw text into blocks on blank
lines; a block contributes the string name colon state exactly when the
Device Name and State searches both succeed and the stripped state is
not exactly OK; on the two-block example with states OK and DOWN the
errors list is exactly Filter: DOWN and the run severity is error. -/
theorem claim_C7 :
    (∀ (output : String) (er : String),
      er ∈ CheckpointAgent.get_errors output ↔
        ∃ device ∈ CheckpointAgent.splitOnBlank output.data [],
          ∃ nameG stateG : List Char,
            CheckpointAgent.searchKeyCapture "Device Name:".data device = some nameG ∧
            CheckpointAgent.searchKeyCapture "State:".data device = some stateG ∧
            String.mk (CheckpointAgent.pyStrip stateG) ≠ "OK" ∧
            er = String.mk (CheckpointAgent.pyStrip nameG) ++ ": " ++
              String.mk (CheckpointAgent.pyStrip stateG)) ∧
    CheckpointAgent.get_errors
      "Device Name: Sync\nState: OK\n\nDevice Name: Filter\nState: DOWN" =
        ["Filter: DOWN"] ∧
    CheckpointAgent.calculate_severity 0 0 0 "Active"
      (CheckpointAgent.get_errors
        "Device Name: Sync\nState: OK\n\nDevice Name: Filter\nState: DOWN") [] 85 95 =
      "error" := by
  refine ⟨?_, by decide, by decide⟩
  intro output er
  unfold CheckpointAgent.get_errors
  rw [List.mem_filterMap]
  constructor
  · rintro ⟨device, hdev, hsome⟩
    refine ⟨device, hdev, ?_⟩
    cases hn : CheckpointAgent.searchKeyCapture "Device Name:".data device with
    | none =>
      simp only [hn] at hsome
      exact Option.noConfusion hsome
    | some nameG =>
      cases hs : CheckpointAgent.searchKeyCapture "State:".data device with
      | none =>
        simp only [hn, hs] at hsome
        exact Option.noConfusion hsome
      | some stateG =>
        simp only [hn, hs] at hsome
        split_ifs at hsome with hok
        simp only [Option.some.injEq] at hsome
        exact ⟨nameG, stateG, rfl, rfl, hok, hsome.symm⟩
  · rintro ⟨device, hdev, nameG, stateG, hn, hs, hne, rfl⟩
    exact ⟨device, hdev, by simp [hn, hs, hne]⟩
